import Mathlib

/-!
A shallow embedding of the turn-based combat scheduler in
`evennia/contrib/turnbattle/tb_items.py` (the `TBItemsTurnHandler` script and
the module-level helpers `is_in_combat`, `is_turn`, `spend_action`,
`combat_cleanup`), together with theorems settling the specification claims.

Modelling conventions:
* Characters are identified by natural-number ids; the mutable attributes the
  scheduler reads and writes (`hp`, `combat_actionsleft`, `combat_lastaction`,
  `combat_turnhandler`) live in a record `Fighter`, with `Option` for
  attributes that may be absent (Evennia's `obj.db.x` yields `None` for a
  missing attribute).
* A `World` holds the attribute store plus the room's
  `combat_turnhandler` reference: `none` when no fight is live, `some h`
  when the script `h` (roster, cursor, timer, warning flag) is attached.
* Python exceptions are modelled by a `Res` record carrying the world as
  mutated up to the raise point, the messages emitted so far, and an optional
  error: `TypeError` from arithmetic on `None`, `AttributeError` from
  dereferencing `None`, `IndexError` from list indexing, `NameError` from an
  unbound local.
* `self.time_until_next_repeat()` (seconds until the next timer callback) is
  an input of each step that uses it, the parameter `tuntr`.
-/

/-! ## Definitions: the embedded combat core and concrete fixtures -/

/-- Character id (an opaque handle to an external entity). -/
abbrev CharId := Nat

/-- The closed set of last-action labels the source ever writes:
`"attack"`, `"pass"`, `"disengage"`, `"item"`, and the initial `"null"`.
All of them are nonempty strings, hence truthy in Python. -/
inductive Label where
  | attack
  | pass
  | disengage
  | item
  | null
deriving DecidableEq, Repr

/-- Python exception classes that the combat code can raise. -/
inductive Err where
  /-- Python `TypeError`: arithmetic on `None` (e.g. `None -= actions`). -/
  | typeErrNone
  /-- Python `AttributeError`: attribute access on `None`
  (e.g. `None.turn_end_check(...)`, `None.db`). -/
  | attrErrNone
  /-- Python `IndexError`: list index out of range. -/
  | indexErr
  /-- Python `NameError`: local variable referenced before assignment. -/
  | nameErr
deriving DecidableEq, Repr

/-- Messages the scheduler emits (room broadcasts and per-character notices). -/
inductive Msg where
  /-- Broadcast "Turn order is: ...". -/
  | turnOrder (ids : List CharId)
  /-- Notice "It's your turn! You have %i HP remaining.". -/
  | yourTurn (i : CharId) (hp : Nat)
  /-- Broadcast "All fighters have disengaged! Combat is over!". -/
  | allDisengaged
  /-- Broadcast "Only %s remains! Combat is over!". -/
  | lastStanding (i : CharId)
  /-- Broadcast "%s's turn ends - %s's turn begins!". -/
  | turnEnds (old : CharId) (new : CharId)
  /-- Broadcast "%s's turn timed out!". -/
  | timedOut (i : CharId)
  /-- Notice "WARNING: About to time out!". -/
  | timeoutWarning (i : CharId)
deriving DecidableEq, Repr

/-- The attributes of one character that the combat core reads or writes.
`combat_actionsleft`, `combat_lastaction` are the transient `combat_*`
attributes (absent = `none`); `combat_turnhandler` records whether the
character carries a back-reference to the live turn handler. -/
structure Fighter where
  hp : Nat
  combat_actionsleft : Option Int
  combat_lastaction : Option Label
  combat_turnhandler : Bool
deriving DecidableEq, Repr

/-- The mutable state of a `TBItemsTurnHandler` script: the roster
(`self.db.fighters`), the cursor (`self.db.turn`), the countdown
(`self.db.timer`) and the warning flag (`self.db.timeout_warning_given`). -/
structure Handler where
  fighters : List CharId
  turn : Nat
  timer : Int
  timeout_warning_given : Bool
deriving DecidableEq, Repr

/-- The world: every character's attributes plus the room's
`combat_turnhandler` attribute (`none` = no live fight in this room). -/
structure World where
  chars : CharId → Fighter
  handler : Option Handler

/-- Result of a stateful operation: the world as mutated so far, the messages
emitted so far, and `some e` when a Python exception `e` was raised. -/
structure Res where
  world : World
  msgs : List Msg
  err : Option Err

/-- A normally completed operation. -/
def Res.ok (w : World) (msgs : List Msg) : Res :=
  { world := w, msgs := msgs, err := none }

/-- An operation that raised exception `e` with the world already mutated
to `w` and messages `msgs` already emitted. -/
def Res.fail (w : World) (msgs : List Msg) (e : Err) : Res :=
  { world := w, msgs := msgs, err := some e }

/-- Option `TURN_TIMEOUT = 30`: time before turns automatically end, in seconds. -/
def TURN_TIMEOUT : Int := 30

/-- Option `ACTIONS_PER_TURN = 1`: number of actions allowed per turn. -/
def ACTIONS_PER_TURN : Int := 1

/-- Option `self.interval = 5`: the periodic callback granularity, in seconds. -/
def INTERVAL : Int := 5

/-- Point update of one character's attributes. -/
def setChar (w : World) (i : CharId) (f : Fighter → Fighter) : World :=
  { w with chars := fun j => if j = i then f (w.chars j) else w.chars j }

/-- Source `combat_cleanup(character)`: removes every attribute whose key begins
with `combat_` (here: `combat_actionsleft`, `combat_lastaction`,
`combat_turnhandler`); `hp` is untouched. -/
def combat_cleanup (c : Fighter) : Fighter :=
  { c with combat_actionsleft := none, combat_lastaction := none,
           combat_turnhandler := false }

/-- Source `is_in_combat(character)`: `bool(character.db.combat_turnhandler)`. -/
def is_in_combat (w : World) (i : CharId) : Bool :=
  (w.chars i).combat_turnhandler

/-- Source `TBItemsTurnHandler.initialize_for_combat(character)`: cleans leftover
`combat_*` attributes, then sets `combat_actionsleft = 0`, records the
back-reference to the handler, and sets `combat_lastaction = "null"`. -/
def init_for_combat (w : World) (i : CharId) : World :=
  setChar w i fun c =>
    let c1 := combat_cleanup c
    { c1 with
      combat_actionsleft := some 0
      combat_turnhandler := true
      combat_lastaction := some Label.null }

/-- Source `TBItemsTurnHandler.start_turn(character)`: replenishes
`combat_actionsleft` to `ACTIONS_PER_TURN` and notifies the character of
their turn and current HP. -/
def start_turn (w : World) (i : CharId) : World × Msg :=
  (setChar w i (fun c => { c with combat_actionsleft := some ACTIONS_PER_TURN }),
   Msg.yourTurn i (w.chars i).hp)

/-- Source `TBItemsTurnHandler.at_stop()`: runs `combat_cleanup` on every fighter in
the roster, then removes the room's `combat_turnhandler` reference. -/
def at_stop (w : World) (h : Handler) : World :=
  { chars := fun j => if j ∈ h.fighters then combat_cleanup (w.chars j) else w.chars j,
    handler := none }

/-- Source `is_turn(character)`: dereferences `character.db.combat_turnhandler`
(raising `AttributeError` on `None`), reads
`turnhandler.db.fighters[turnhandler.db.turn]` (raising `IndexError` when the
cursor is out of range) and compares with `character`. -/
def is_turn (w : World) (i : CharId) : Except Err Bool :=
  if (w.chars i).combat_turnhandler then
    match w.handler with
    | some h =>
      match h.fighters[h.turn]? with
      | some currentchar => Except.ok (i == currentchar)
      | none => Except.error Err.indexErr
    | none => Except.error Err.attrErrNone
  else Except.error Err.attrErrNone

/-- Source `TBItemsTurnHandler.next_turn()`: checks the all-disengaged termination,
then the last-standing termination, and otherwise rotates the cursor, resets
the timer to `TURN_TIMEOUT + self.time_until_next_repeat()` (the parameter
`tuntr`), clears the warning flag and starts the new character's turn. -/
def next_turn (w : World) (h : Handler) (tuntr : Nat) : Res :=
  -- disengage_check: every fighter's last action equals "disengage"
  if h.fighters.all (fun i => (w.chars i).combat_lastaction = some Label.disengage) then
    Res.ok (at_stop w h) [Msg.allDisengaged]
  else
    -- defeated_characters: count of fighters whose HP equals 0
    let defeated := h.fighters.countP (fun i => (w.chars i).hp = 0)
    if (defeated : Int) = (h.fighters.length : Int) - 1 then
      -- the loop `for fighter: if HP != 0: LastStanding = fighter` binds
      -- LastStanding to the LAST fighter in roster order with nonzero HP,
      -- and raises NameError if there is none
      match (h.fighters.filter (fun i => (w.chars i).hp ≠ 0)).getLast? with
      | some survivor => Res.ok (at_stop w h) [Msg.lastStanding survivor]
      | none => Res.fail w [] Err.nameErr
    else
      match h.fighters[h.turn]? with
      | none => Res.fail w [] Err.indexErr
      | some currentchar =>
        -- `self.db.turn += 1; if self.db.turn > len(fighters) - 1: = 0`
        let turn1 : Nat :=
          if ((h.turn : Int) + 1 > (h.fighters.length : Int) - 1) then 0 else h.turn + 1
        match h.fighters[turn1]? with
        | none => Res.fail w [] Err.indexErr
        | some newchar =>
          let h1 : Handler :=
            { h with turn := turn1, timer := TURN_TIMEOUT + (tuntr : Int),
                     timeout_warning_given := false }
          let w1 : World := { w with handler := some h1 }
          let sr := start_turn w1 newchar
          Res.ok sr.1 [Msg.turnEnds currentchar newchar, sr.2]

/-- Source `TBItemsTurnHandler.turn_end_check(character)`: when the character's
`combat_actionsleft` is falsy (`None` or `0`), advances to the next turn;
otherwise no-op. -/
def turn_end_check (w : World) (h : Handler) (i : CharId) (tuntr : Nat) : Res :=
  match (w.chars i).combat_actionsleft with
  | none => next_turn w h tuntr
  | some n => if n = 0 then next_turn w h tuntr else Res.ok w []

/-- The `actions` argument of `spend_action`: the string `'all'` or an
integer count. -/
inductive Amount where
  | all
  | num (n : Int)
deriving DecidableEq, Repr

/-- The tail of `spend_action`:
`character.db.combat_turnhandler.turn_end_check(character)`. Dereferencing an
absent back-reference raises `AttributeError` on `None`. -/
def spend_action_check (w : World) (i : CharId) (tuntr : Nat) : Res :=
  if (w.chars i).combat_turnhandler then
    match w.handler with
    | some h => turn_end_check w h i tuntr
    | none => Res.fail w [] Err.attrErrNone
  else Res.fail w [] Err.attrErrNone

/-- The mutation phase of `spend_action`: sets `combat_lastaction` when a
label is given (`if action_name:` — every label in the closed set is a
nonempty, hence truthy, string), then updates `combat_actionsleft`:
`'all'` sets it to 0; an integer is subtracted and the result clamped at 0;
subtracting from an absent attribute raises `TypeError` (`None -= actions`). -/
def spend_phase (w : World) (i : CharId) (actions : Amount) (action_name : Option Label) :
    World × Option Err :=
  let w1 := match action_name with
    | some lab => setChar w i (fun c => { c with combat_lastaction := some lab })
    | none => w
  match actions with
  | Amount.all => (setChar w1 i (fun c => { c with combat_actionsleft := some 0 }), none)
  | Amount.num n =>
    match (w1.chars i).combat_actionsleft with
    | none => (w1, some Err.typeErrNone)
    | some v =>
      let v1 := v - n
      let v2 := if v1 < 0 then 0 else v1
      (setChar w1 i (fun c => { c with combat_actionsleft := some v2 }), none)

/-- Source `spend_action(character, actions, action_name=None)`: the mutation phase
followed by `character.db.combat_turnhandler.turn_end_check(character)`. -/
def spend_action (w : World) (i : CharId) (actions : Amount) (action_name : Option Label)
    (tuntr : Nat) : Res :=
  match spend_phase w i actions action_name with
  | (w1, some e) => Res.fail w1 [] e
  | (w1, none) => spend_action_check w1 i tuntr

/-- Source `TBItemsTurnHandler.at_repeat()`: reads the current character, decrements
the timer by the interval; on timeout announces it and force-spends all the
current character's actions with label `"disengage"`; otherwise possibly
issues the single timeout warning. Invoked on a stopped script (whose
attributes are deleted), reading `self.db.fighters[...]` raises. -/
def at_repeat (w : World) (tuntr : Nat) : Res :=
  match w.handler with
  | none => Res.fail w [] Err.attrErrNone
  | some h =>
    match h.fighters[h.turn]? with
    | none => Res.fail w [] Err.indexErr
    | some currentchar =>
      let h1 : Handler := { h with timer := h.timer - INTERVAL }
      let w1 : World := { w with handler := some h1 }
      if h1.timer ≤ 0 then
        let r := spend_action w1 currentchar Amount.all (some Label.disengage) tuntr
        { r with msgs := Msg.timedOut currentchar :: r.msgs }
      else if h1.timer ≤ 10 ∧ ¬ h1.timeout_warning_given then
        Res.ok { w with handler := some { h1 with timeout_warning_given := true } }
          [Msg.timeoutWarning currentchar]
      else
        Res.ok w1 []

/-- Python `list.insert(i, x)`: inserts `x` before position `i`, clamping `i`
to the list length (so an over-large index appends). -/
def pyInsert (i : Nat) (x : α) (l : List α) : List α :=
  l.take i ++ x :: l.drop i

/-- Source `TBItemsTurnHandler.join_fight(character)`:
`self.db.fighters.insert(self.db.turn, character)` (insert at the cursor,
i.e. before the current fighter), `self.db.turn += 1`, then
`initialize_for_combat(character)`. Called through the room's reference;
on a room with no live fight the dereference raises. -/
def join_fight (w : World) (i : CharId) : Res :=
  match w.handler with
  | none => Res.fail w [] Err.attrErrNone
  | some h =>
    let h1 : Handler :=
      { h with fighters := pyInsert h.turn i h.fighters, turn := h.turn + 1 }
    Res.ok (init_for_combat { w with handler := some h1 } i) []

/-- The lexicographic order (key descending, original position ascending) on
position-decorated elements that characterizes a stable descending sort. -/
def initRel (score : CharId → Nat) : (Nat × CharId) → (Nat × CharId) → Prop :=
  fun a b => score b.2 < score a.2 ∨ (score a.2 = score b.2 ∧ a.1 ≤ b.1)

instance (score : CharId → Nat) : DecidableRel (initRel score) :=
  fun a b => by unfold initRel; infer_instance

/-- The stable descending sort performed by
`sorted(self.db.fighters, key=roll_init, reverse=True)`: Python's sort is
stable and `reverse=True` keeps equal-key elements in original order, so the
result is exactly the (unique) sort of the position-decorated list under the
antisymmetric total lexicographic order `initRel` (key descending, original
position ascending). The pluggable scoring function (`roll_init`, by default
a uniform random integer in [1,1000], called once per element) is the
parameter `score`. -/
def stableSortDesc (score : CharId → Nat) (l : List CharId) : List CharId :=
  (List.insertionSort (initRel score) l.enum).map Prod.snd

/-- Source `TBItemsTurnHandler.at_script_creation()`: collects the room contents
with truthy (nonzero) HP as the roster, initializes each for combat, records
the room back-reference, sorts the roster by initiative (descending, stable),
announces the order, starts the first fighter's turn (`IndexError` on an
empty roster), and sets `turn = 0`, `timer = TURN_TIMEOUT`. The warning flag
starts absent, i.e. falsy. -/
def at_script_creation (w : World) (contents : List CharId) (score : CharId → Nat) : Res :=
  let fighters := contents.filter (fun i => (w.chars i).hp ≠ 0)
  let w1 := fighters.foldl (fun acc i => init_for_combat acc i) w
  let ordered := stableSortDesc score fighters
  let h : Handler :=
    { fighters := ordered, turn := 0, timer := TURN_TIMEOUT,
      timeout_warning_given := false }
  let w2 : World := { w1 with handler := some h }
  match ordered[0]? with
  | none => Res.fail w2 [Msg.turnOrder ordered] Err.indexErr
  | some first =>
    let sr := start_turn w2 first
    Res.ok sr.1 [Msg.turnOrder ordered, sr.2]

/-- Builds a character attribute record for the concrete examples. -/
def mkFighter (hp : Nat) (al : Option Int) (la : Option Label) (th : Bool) : Fighter :=
  { hp := hp, combat_actionsleft := al, combat_lastaction := la,
    combat_turnhandler := th }

/-- A character store assigning given records to ids 1, 2, 3 and an inert
record to every other id. -/
def mkChars (c1 c2 c3 : Fighter) : CharId → Fighter :=
  fun j => if j = 1 then c1 else if j = 2 then c2 else if j = 3 then c3
           else mkFighter 0 none none false

/-- A 2-fighter state in which fighter 1 is defeated (HP 0) and both
fighters' last action is `disengage`: exactly roster-size − 1 fighters are at
0 HP, yet the all-disengaged check fires first. -/
def wC1 : World :=
  { chars := mkChars (mkFighter 0 (some 0) (some Label.disengage) true)
                     (mkFighter 9 (some 0) (some Label.disengage) true)
                     (mkFighter 0 none none false),
    handler := some { fighters := [1, 2], turn := 0, timer := 30,
                      timeout_warning_given := false } }

/-- The handler of `wC1`. -/
def hC1 : Handler :=
  { fighters := [1, 2], turn := 0, timer := 30, timeout_warning_given := false }

/-- A 3-fighter state in which fighters 1 and 3 have reached 0 HP and not
everyone has disengaged: the last-standing termination applies to fighter 2. -/
def wC1w : World :=
  { chars := mkChars (mkFighter 0 (some 0) (some Label.attack) true)
                     (mkFighter 7 (some 0) (some Label.null) true)
                     (mkFighter 0 (some 0) (some Label.disengage) true),
    handler := some { fighters := [1, 2, 3], turn := 0, timer := 30,
                      timeout_warning_given := false } }

/-- The handler of `wC1w`. -/
def hC1w : Handler :=
  { fighters := [1, 2, 3], turn := 0, timer := 30, timeout_warning_given := false }

/-- A 3-fighter state: fighter 1 is defeated (HP 0) with last action `null`
(never disengaged); fighters 2 and 3 are alive and both disengaged. -/
def wC2 : World :=
  { chars := mkChars (mkFighter 0 (some 0) (some Label.null) true)
                     (mkFighter 3 (some 0) (some Label.disengage) true)
                     (mkFighter 4 (some 0) (some Label.disengage) true),
    handler := some { fighters := [1, 2, 3], turn := 1, timer := 30,
                      timeout_warning_given := false } }

/-- The handler of `wC2`. -/
def hC2 : Handler :=
  { fighters := [1, 2, 3], turn := 1, timer := 30, timeout_warning_given := false }

/-- A live 2-fighter fight (fighters 1 and 2, fighter 1's turn). -/
def wC3 : World :=
  { chars := mkChars (mkFighter 100 (some 1) (some Label.null) true)
                     (mkFighter 80 (some 0) (some Label.null) true)
                     (mkFighter 50 none none false),
    handler := some { fighters := [1, 2], turn := 0, timer := 30,
                      timeout_warning_given := false } }

/-- The handler of `wC3`. -/
def hC3 : Handler :=
  { fighters := [1, 2], turn := 0, timer := 30, timeout_warning_given := false }

/-- The world after the fight in `wC1` terminates (the all-disengaged
transition runs `at_stop`): handler reference removed, fighters cleaned. -/
def wC5 : World := (next_turn wC1 hC1 0).world

/-- Characters 1 (HP 100), 2 (HP 80), 3 (HP 50), none yet in combat. -/
def wBase : World :=
  { chars := mkChars (mkFighter 100 none none false)
                     (mkFighter 80 none none false)
                     (mkFighter 50 none none false),
    handler := none }

/-- An initiative scoring function: fighter 2 rolls 700, everyone else 500. -/
def scoreA : CharId → Nat := fun j => if j = 2 then 700 else 500

/-- A fresh 2-participant fight among fighters 1 and 2 of `wBase`:
roster `[2, 1]` (fighter 2 rolled higher), fighter 2's turn. -/
def rC6a : Res := at_script_creation wBase [1, 2] scoreA

/-- Fighter 2 disengages, spending all actions; the turn rotates to 1. -/
def rC6b : Res := spend_action rC6a.world 2 Amount.all (some Label.disengage) 2

/-- Fighter 1 disengages, spending all actions; all have disengaged. -/
def rC6c : Res := spend_action rC6b.world 1 Amount.all (some Label.disengage) 2

/-- The state the second disengage's end-of-turn evaluation sees: both
fighters' last action is `disengage`. -/
def wC6 : World :=
  { chars := mkChars (mkFighter 100 (some 0) (some Label.disengage) true)
                     (mkFighter 80 (some 0) (some Label.disengage) true)
                     (mkFighter 50 none none false),
    handler := some { fighters := [2, 1], turn := 1, timer := 32,
                      timeout_warning_given := false } }

/-- The handler of `wC6`. -/
def hC6 : Handler :=
  { fighters := [2, 1], turn := 1, timer := 32, timeout_warning_given := false }

/-- Ticks 1–6 of the fresh fight `rC6a` (roster `[2, 1]`, timer 30,
interval 5) with no intervening `spend_action`. -/
def rT1 : Res := at_repeat rC6a.world 5

/-- Second tick. -/
def rT2 : Res := at_repeat rT1.world 5

/-- Third tick. -/
def rT3 : Res := at_repeat rT2.world 5

/-- Fourth tick (timer reaches 10: the single timeout warning). -/
def rT4 : Res := at_repeat rT3.world 5

/-- Fifth tick. -/
def rT5 : Res := at_repeat rT4.world 5

/-- Sixth tick (timer reaches 0: timeout). -/
def rT6 : Res := at_repeat rT5.world 5

/-- The handler state after the fifth tick. -/
def hT5 : Handler :=
  { fighters := [2, 1], turn := 0, timer := 5, timeout_warning_given := true }

instance instTotalInitRel (score : CharId → Nat) :
    IsTotal (Nat × CharId) (initRel score) :=
  ⟨by
    intro a b
    unfold initRel
    rcases Nat.lt_trichotomy (score a.2) (score b.2) with hlt | heq | hgt
    · exact Or.inr (Or.inl hlt)
    · rcases Nat.le_total a.1 b.1 with hab | hba
      · exact Or.inl (Or.inr ⟨heq, hab⟩)
      · exact Or.inr (Or.inr ⟨heq.symm, hba⟩)
    · exact Or.inl (Or.inl hgt)⟩

instance instTransInitRel (score : CharId → Nat) :
    IsTrans (Nat × CharId) (initRel score) :=
  ⟨by
    intro a b c hab hbc
    unfold initRel at hab hbc ⊢
    rcases hab with h1 | ⟨h1, h2⟩ <;> rcases hbc with h3 | ⟨h3, h4⟩
    · exact Or.inl (by omega)
    · exact Or.inl (by omega)
    · exact Or.inl (by omega)
    · exact Or.inr ⟨by omega, by omega⟩⟩

/-! ## Theorems settling the claims C1 - C10 -/

/-- C1: COUNTEREXAMPLE. In `wC1` exactly roster-size − 1 roster members have
0 HP, so the claim requires the end-of-turn evaluation to announce the sole
survivor (fighter 2); but both fighters' last action is `disengage`, the
all-disengaged check fires first, and `next_turn` announces only
`allDisengaged` — no `lastStanding` message is emitted. -/
theorem C1_counterexample :
    ((hC1.fighters.countP fun i => decide ((wC1.chars i).hp = 0)) : Int)
        = (hC1.fighters.length : Int) - 1 ∧
    wC1.handler = some hC1 ∧
    (wC1.chars 2).hp ≠ 0 ∧
    (next_turn wC1 hC1 5).msgs = [Msg.allDisengaged] ∧
    Msg.lastStanding 2 ∉ (next_turn wC1 hC1 5).msgs := by
  decide

/-- C1 (amended): whenever the end-of-turn evaluation runs with exactly
roster-size − 1 roster members at 0 HP, PROVIDED not every roster member's
last action is `disengage` (the all-disengaged check has priority), the
scheduler announces the sole surviving participant and stops itself. -/
theorem C1_last_standing (w : World) (h : Handler) (tuntr : Nat)
    (hnd : (h.fighters.all fun i =>
        decide ((w.chars i).combat_lastaction = some Label.disengage)) = false)
    (hcount : ((h.fighters.countP fun i => decide ((w.chars i).hp = 0)) : Int)
        = (h.fighters.length : Int) - 1) :
    ∃ s, h.fighters.filter (fun i => decide ((w.chars i).hp ≠ 0)) = [s] ∧
      (w.chars s).hp ≠ 0 ∧
      next_turn w h tuntr = Res.ok (at_stop w h) [Msg.lastStanding s] := by
  have hfin : (fun i => decide ((w.chars i).hp ≠ 0))
      = (fun i => !(decide ((w.chars i).hp = 0))) := by
    funext i; simp [decide_not]
  have hsplit := List.length_eq_countP_add_countP
    (fun i => decide ((w.chars i).hp = 0)) h.fighters
  have hnot : (h.fighters.countP fun a =>
        decide ¬(decide ((w.chars a).hp = 0) = true))
      = h.fighters.countP (fun i => decide ((w.chars i).hp ≠ 0)) := by
    apply List.countP_congr
    intro a _
    simp [decide_not]
  rw [hnot] at hsplit
  have hlen : (h.fighters.filter (fun i => decide ((w.chars i).hp ≠ 0))).length = 1 := by
    rw [← List.countP_eq_length_filter]
    omega
  obtain ⟨s, hs⟩ := List.length_eq_one.mp hlen
  have hsmem : s ∈ h.fighters.filter (fun i => decide ((w.chars i).hp ≠ 0)) := by
    rw [hs]; exact List.mem_cons_self _ _
  have hsal : (w.chars s).hp ≠ 0 := by
    have h2 := (List.mem_filter.mp hsmem).2
    simpa using h2
  refine ⟨s, hs, hsal, ?_⟩
  unfold next_turn
  rw [hnd]
  simp only [Bool.false_eq_true, if_false]
  rw [if_pos hcount, hs]
  rfl

/-- C1 witness: a 3-participant fight in which two participants (1 and 3)
have 0 HP and not everyone disengaged ends with the third (fighter 2)
announced as sole survivor. -/
theorem C1_last_standing_witness :
    ∃ s, hC1w.fighters.filter (fun i => decide ((wC1w.chars i).hp ≠ 0)) = [s] ∧
      (wC1w.chars s).hp ≠ 0 ∧
      next_turn wC1w hC1w 5 = Res.ok (at_stop wC1w hC1w) [Msg.lastStanding s] :=
  C1_last_standing wC1w hC1w 5 (by decide) (by decide)

/-- C2: COUNTEREXAMPLE. In `wC2` every non-defeated roster member's last
action is `disengage`, and the only other member is defeated (HP 0) with a
last action that is not `disengage`. The claim says the defeated member is
skipped, so the all-disengaged termination should fire; but `next_turn` does
not end the fight (the handler survives and no `allDisengaged` message is
emitted): the defeated member does prevent termination. -/
theorem C2_counterexample :
    (wC2.chars 1).hp = 0 ∧
    (wC2.chars 1).combat_lastaction ≠ some Label.disengage ∧
    (∀ j ∈ hC2.fighters, (wC2.chars j).hp ≠ 0 →
      (wC2.chars j).combat_lastaction = some Label.disengage) ∧
    wC2.handler = some hC2 ∧
    (next_turn wC2 hC2 5).world.handler ≠ none ∧
    Msg.allDisengaged ∉ (next_turn wC2 hC2 5).msgs := by
  decide

/-- C2 (amended): the all-disengaged bookkeeping includes defeated
participants: the end-of-turn evaluation announces the all-disengaged
termination exactly when EVERY roster member's — defeated or not — last
action equals `disengage`; a defeated participant whose last action is not
`disengage` prevents it from firing. -/
theorem C2_disengage_check_includes_defeated (w : World) (h : Handler) (tuntr : Nat) :
    Msg.allDisengaged ∈ (next_turn w h tuntr).msgs ↔
      ∀ j ∈ h.fighters, (w.chars j).combat_lastaction = some Label.disengage := by
  unfold next_turn
  by_cases hall : (h.fighters.all fun i =>
      decide ((w.chars i).combat_lastaction = some Label.disengage)) = true
  · rw [if_pos hall]
    constructor
    · intro _ j hj
      have h2 := List.all_eq_true.mp hall j hj
      simpa using h2
    · intro _
      simp [Res.ok]
  · rw [if_neg hall]
    constructor
    · intro hmem
      exfalso
      revert hmem
      unfold start_turn
      repeat' split
      all_goals try simp [Res.ok, Res.fail]
      all_goals repeat' split
      all_goals simp [Res.ok, Res.fail]
    · intro hforall
      exact absurd (List.all_eq_true.mpr fun j hj => by simpa using hforall j hj) hall

/-- C3: COUNTEREXAMPLE. Joining fighter 3 to the live fight `wC3` (roster
`[1, 2]`, cursor 0) yields roster `[3, 1, 2]` with cursor 1: the cursor still
points at fighter 1, whose turn was in progress, but the newcomer occupies
the slot directly BEFORE that participant (index 0), not the slot directly
after it (index 2, still held by fighter 2). -/
theorem C3_counterexample :
    wC3.handler = some hC3 ∧
    hC3.fighters[hC3.turn]? = some 1 ∧
    (join_fight wC3 3).world.handler = some
      { fighters := [3, 1, 2], turn := 1, timer := 30,
        timeout_warning_given := false } ∧
    ([3, 1, 2] : List CharId)[1]? = some 1 ∧
    ([3, 1, 2] : List CharId)[1 + 1]? = some 2 ∧
    (2 : CharId) ≠ 3 ∧
    ([3, 1, 2] : List CharId)[0]? = some 3 := by
  decide

/-- C3 (amended): `join_fight(p)` on a live fight inserts `p` immediately
BEFORE the current cursor position (at index `turn`) and advances the cursor
by one, so the cursor still points at the same participant whose turn was in
progress while `p` occupies the roster slot directly before (not after) that
participant; `p`'s transient fields are initialized as at construction
(actions-remaining 0, last-action `null`, back-reference set) and the
countdown is not reset. -/
theorem C3_join_fight (w : World) (h : Handler) (p : CharId)
    (hw : w.handler = some h) (ht : h.turn < h.fighters.length) :
    ∃ h2, (join_fight w p).err = none ∧ (join_fight w p).msgs = [] ∧
      (join_fight w p).world.handler = some h2 ∧
      h2.fighters = h.fighters.take h.turn ++ p :: h.fighters.drop h.turn ∧
      h2.turn = h.turn + 1 ∧
      h2.timer = h.timer ∧
      h2.timeout_warning_given = h.timeout_warning_given ∧
      h2.fighters[h.turn]? = some p ∧
      h2.fighters[h2.turn]? = h.fighters[h.turn]? ∧
      ((join_fight w p).world.chars p).combat_actionsleft = some 0 ∧
      ((join_fight w p).world.chars p).combat_lastaction = some Label.null ∧
      ((join_fight w p).world.chars p).combat_turnhandler = true := by
  have hlen : (h.fighters.take h.turn).length = h.turn := by
    simp [List.length_take, Nat.min_eq_left (Nat.le_of_lt ht)]
  refine ⟨{ h with fighters := pyInsert h.turn p h.fighters, turn := h.turn + 1 },
    ?_, ?_, ?_, rfl, rfl, rfl, rfl, ?_, ?_, ?_, ?_, ?_⟩
  · unfold join_fight; rw [hw]
    rfl
  · unfold join_fight; rw [hw]
    rfl
  · unfold join_fight; rw [hw]
    rfl
  · show (pyInsert h.turn p h.fighters)[h.turn]? = some p
    unfold pyInsert
    rw [List.getElem?_append]
    simp [hlen]
  · show (pyInsert h.turn p h.fighters)[h.turn + 1]? = h.fighters[h.turn]?
    unfold pyInsert
    rw [List.getElem?_append]
    simp only [hlen]
    rw [if_neg (by omega)]
    have hsub : h.turn + 1 - h.turn = 1 := by omega
    rw [hsub]
    simp [List.getElem?_drop]
  · unfold join_fight; rw [hw]; simp [init_for_combat, setChar, Res.ok]
  · unfold join_fight; rw [hw]; simp [init_for_combat, setChar, Res.ok]
  · unfold join_fight; rw [hw]; simp [init_for_combat, setChar, Res.ok]

/-- C3 witness: joining fighter 3 to the concrete live fight `wC3`. -/
theorem C3_join_fight_witness :
    ∃ h2, (join_fight wC3 3).err = none ∧ (join_fight wC3 3).msgs = [] ∧
      (join_fight wC3 3).world.handler = some h2 ∧
      h2.fighters = hC3.fighters.take hC3.turn ++ 3 :: hC3.fighters.drop hC3.turn ∧
      h2.turn = hC3.turn + 1 ∧
      h2.timer = hC3.timer ∧
      h2.timeout_warning_given = hC3.timeout_warning_given ∧
      h2.fighters[hC3.turn]? = some 3 ∧
      h2.fighters[h2.turn]? = hC3.fighters[hC3.turn]? ∧
      ((join_fight wC3 3).world.chars 3).combat_actionsleft = some 0 ∧
      ((join_fight wC3 3).world.chars 3).combat_lastaction = some Label.null ∧
      ((join_fight wC3 3).world.chars 3).combat_turnhandler = true :=
  C3_join_fight wC3 hC3 3 (by decide) (by decide)

/-- C4: COUNTEREXAMPLE. Rotating the turn in the live fight `wC3` while the
next periodic tick is 3 seconds away resets the countdown to
`TURN_TIMEOUT + 3 = 33`, not to exactly `TURN_TIMEOUT = 30`, the value
construction establishes for the first turn (the code adds
`self.time_until_next_repeat()` to the reset). The warning flag is cleared. -/
theorem C4_counterexample :
    (next_turn wC3 hC3 3).msgs = [Msg.turnEnds 1 2, Msg.yourTurn 2 80] ∧
    (next_turn wC3 hC3 3).world.handler = some
      { fighters := [1, 2], turn := 1, timer := 33,
        timeout_warning_given := false } ∧
    (33 : Int) ≠ TURN_TIMEOUT := by
  decide

/-- C4 (amended): whenever the end-of-turn evaluation rotates the turn (no
termination condition holds and the cursor is valid), the countdown is reset
to `TURN_TIMEOUT + time_until_next_repeat` — at least `turn_timeout_seconds`
but in general larger than the exact construction value — and the
timeout-warning flag is cleared; the roster is unchanged. -/
theorem C4_timer_reset (w : World) (h : Handler) (tuntr : Nat)
    (hall : (h.fighters.all fun i =>
        decide ((w.chars i).combat_lastaction = some Label.disengage)) = false)
    (hcount : ¬ (((h.fighters.countP fun i => decide ((w.chars i).hp = 0)) : Int)
        = (h.fighters.length : Int) - 1))
    (ht : h.turn < h.fighters.length) :
    ∃ h1, (next_turn w h tuntr).err = none ∧
      (next_turn w h tuntr).world.handler = some h1 ∧
      h1.timer = TURN_TIMEOUT + (tuntr : Int) ∧
      TURN_TIMEOUT ≤ h1.timer ∧
      h1.timeout_warning_given = false ∧
      h1.fighters = h.fighters := by
  have ht1 : (if ((h.turn : Int) + 1 > (h.fighters.length : Int) - 1)
      then 0 else h.turn + 1) < h.fighters.length := by
    split
    · omega
    · omega
  unfold next_turn
  rw [hall]
  simp only [Bool.false_eq_true, if_false]
  rw [if_neg hcount]
  rw [List.getElem?_eq_getElem ht]
  rw [List.getElem?_eq_getElem ht1]
  exact ⟨_, rfl, rfl, rfl, by simp, rfl, rfl⟩

/-- C4 witness: rotating `wC3` with the next tick 3 seconds away. -/
theorem C4_timer_reset_witness :
    ∃ h1, (next_turn wC3 hC3 3).err = none ∧
      (next_turn wC3 hC3 3).world.handler = some h1 ∧
      h1.timer = TURN_TIMEOUT + (3 : Nat) ∧
      TURN_TIMEOUT ≤ h1.timer ∧
      h1.timeout_warning_given = false ∧
      h1.fighters = hC3.fighters :=
  C4_timer_reset wC3 hC3 3 (by decide) (by decide) (by decide)

/-- C5: COUNTEREXAMPLE. After the scheduler has transitioned to ENDED
(`wC5`), further operations do fail — but not with any dedicated
`CombatEndedError` / "combat already ended" condition: no such error exists
in the code. `spend_action` raises `AttributeError` (dereferencing the
cleared `combat_turnhandler`) for `'all'` and `TypeError` (`None -=
actions`) for an integer amount — two incidental builtin exception classes —
and, before raising, it mutates the character's transient state: the
last-action field, which the ENDED cleanup had cleared, is silently
rewritten to `pass`. -/
theorem C5_counterexample :
    (next_turn wC1 hC1 0).world.handler = none ∧
    (wC5.chars 1).combat_lastaction = none ∧
    (spend_action wC5 1 Amount.all (some Label.pass) 0).err = some Err.attrErrNone ∧
    (spend_action wC5 1 (Amount.num 1) (some Label.pass) 0).err = some Err.typeErrNone ∧
    ((spend_action wC5 1 Amount.all (some Label.pass) 0).world.chars 1).combat_lastaction
      = some Label.pass := by
  decide

/-- C5 (amended): once the scheduler has transitioned to ENDED (room
reference `none`, character back-references cleared), every further
operation fails by raising a generic builtin exception — from dereferencing
the removed back-reference or the deleted attributes — rather than silently
no-op-ing, and never mutates roster, cursor, or timer state (the handler
state stays gone); but the failure is not a dedicated `CombatEndedError`,
and `spend_action` still writes the character's transient fields before
raising. -/
theorem C5_ended_ops_raise (w : World) (i j : CharId) (a : Amount)
    (l : Option Label) (tuntr : Nat)
    (hw : w.handler = none)
    (hch : (w.chars i).combat_turnhandler = false) :
    at_repeat w tuntr = Res.fail w [] Err.attrErrNone ∧
    join_fight w j = Res.fail w [] Err.attrErrNone ∧
    is_turn w i = Except.error Err.attrErrNone ∧
    (spend_action w i a l tuntr).err.isSome = true ∧
    (spend_action w i a l tuntr).world.handler = none := by
  refine ⟨?_, ?_, ?_, ?_, ?_⟩
  · unfold at_repeat; rw [hw]
  · unfold join_fight; rw [hw]
  · simp [is_turn, hch]
  · rcases a with _ | n <;> rcases l with _ | lab <;>
      rcases hal : (w.chars i).combat_actionsleft with _ | v <;>
      simp [spend_action, spend_phase, spend_action_check, setChar, hch, hw,
        Res.fail, hal]
  · rcases a with _ | n <;> rcases l with _ | lab <;>
      rcases hal : (w.chars i).combat_actionsleft with _ | v <;>
      simp [spend_action, spend_phase, spend_action_check, setChar, hch, hw,
        Res.fail, hal]

/-- C5 witness: the ENDED world `wC5` with fighter 1, both amount shapes
covered by the universally quantified theorem; instantiated at `'all'`. -/
theorem C5_ended_ops_raise_witness :
    at_repeat wC5 0 = Res.fail wC5 [] Err.attrErrNone ∧
    join_fight wC5 3 = Res.fail wC5 [] Err.attrErrNone ∧
    is_turn wC5 1 = Except.error Err.attrErrNone ∧
    (spend_action wC5 1 Amount.all (some Label.pass) 0).err.isSome = true ∧
    (spend_action wC5 1 Amount.all (some Label.pass) 0).world.handler = none :=
  C5_ended_ops_raise wC5 1 3 Amount.all (some Label.pass) 0 (by decide) (by decide)

/-- C6: whenever the end-of-turn evaluation runs and every roster member's
last-action label equals `disengage`, the scheduler announces combat end and
stops itself: the venue back-reference is removed and every roster member's
transient combat fields (actions-remaining, last-action, back-reference) are
cleared. -/
theorem C6_all_disengaged_cleanup (w : World) (h : Handler) (tuntr : Nat)
    (hall : ∀ j ∈ h.fighters, (w.chars j).combat_lastaction = some Label.disengage) :
    next_turn w h tuntr = Res.ok (at_stop w h) [Msg.allDisengaged] ∧
    (next_turn w h tuntr).world.handler = none ∧
    ∀ j ∈ h.fighters,
      ((next_turn w h tuntr).world.chars j).combat_actionsleft = none ∧
      ((next_turn w h tuntr).world.chars j).combat_lastaction = none ∧
      ((next_turn w h tuntr).world.chars j).combat_turnhandler = false := by
  have hb : (h.fighters.all fun i =>
      decide ((w.chars i).combat_lastaction = some Label.disengage)) = true :=
    List.all_eq_true.mpr fun j hj => by simpa using hall j hj
  have hmain : next_turn w h tuntr = Res.ok (at_stop w h) [Msg.allDisengaged] := by
    unfold next_turn; rw [if_pos hb]
  refine ⟨hmain, ?_, ?_⟩
  · rw [hmain]; rfl
  · intro j hj
    rw [hmain]
    simp [Res.ok, at_stop, combat_cleanup, hj]

/-- C6 witness: the theorem applied at the concrete both-disengaged state
`wC6`, plus the full 2-participant scenario: starting the fight and having
both participants `spend_action(..., 'all', "disengage")` ends the fight
(announcing it) and clears both participants' transient fields. -/
theorem C6_all_disengaged_cleanup_witness :
    (next_turn wC6 hC6 2 = Res.ok (at_stop wC6 hC6) [Msg.allDisengaged] ∧
     (next_turn wC6 hC6 2).world.handler = none ∧
     ∀ j ∈ hC6.fighters,
       ((next_turn wC6 hC6 2).world.chars j).combat_actionsleft = none ∧
       ((next_turn wC6 hC6 2).world.chars j).combat_lastaction = none ∧
       ((next_turn wC6 hC6 2).world.chars j).combat_turnhandler = false) ∧
    (rC6c.world.handler = none ∧
     Msg.allDisengaged ∈ rC6c.msgs ∧ rC6c.err = none ∧
     (rC6c.world.chars 1).combat_actionsleft = none ∧
     (rC6c.world.chars 1).combat_lastaction = none ∧
     (rC6c.world.chars 1).combat_turnhandler = false ∧
     (rC6c.world.chars 2).combat_actionsleft = none ∧
     (rC6c.world.chars 2).combat_lastaction = none ∧
     (rC6c.world.chars 2).combat_turnhandler = false) :=
  ⟨C6_all_disengaged_cleanup wC6 hC6 2 (by decide), by decide⟩

/-- C7: for an in-combat participant, `spend_action(p, amount, label)` sets
the last-action to the label when one is given (and leaves it alone
otherwise), sets actions-remaining to 0 for `'all'` and to
`max(previous − amount, 0)` for an integer amount — never negative — and
always invokes the end-of-turn check (`turn_end_check`) on the mutated
state afterward. -/
theorem C7_spend_action (w : World) (i : CharId) (a : Amount) (l : Option Label)
    (tuntr : Nat) (h : Handler) (prev : Int)
    (hth : (w.chars i).combat_turnhandler = true)
    (hw : w.handler = some h)
    (hprev : (w.chars i).combat_actionsleft = some prev) :
    (spend_phase w i a l).2 = none ∧
    (∀ lab, l = some lab →
      (((spend_phase w i a l).1).chars i).combat_lastaction = some lab) ∧
    (l = none →
      (((spend_phase w i a l).1).chars i).combat_lastaction
        = (w.chars i).combat_lastaction) ∧
    (a = Amount.all →
      (((spend_phase w i a l).1).chars i).combat_actionsleft = some 0) ∧
    (∀ n, a = Amount.num n →
      (((spend_phase w i a l).1).chars i).combat_actionsleft
        = some (max (prev - n) 0)) ∧
    (∃ v, (((spend_phase w i a l).1).chars i).combat_actionsleft = some v ∧ 0 ≤ v) ∧
    spend_action w i a l tuntr = turn_end_check (spend_phase w i a l).1 h i tuntr := by
  have hmax : ∀ x : Int, (if x < 0 then (0 : Int) else x) = max x 0 := by
    intro x
    rw [Int.max_def]
    split <;> split <;> omega
  refine ⟨?_, ?_, ?_, ?_, ?_, ?_, ?_⟩
  · rcases a with _ | n <;> rcases l with _ | lab <;>
      simp [spend_phase, setChar, hprev]
  · intro lab hl
    subst hl
    rcases a with _ | n <;> simp [spend_phase, setChar, hprev]
  · intro hl
    subst hl
    rcases a with _ | n <;> simp [spend_phase, setChar, hprev]
  · intro ha
    subst ha
    rcases l with _ | lab <;> simp [spend_phase, setChar]
  · intro n hn
    subst hn
    rcases l with _ | lab <;> simp [spend_phase, setChar, hprev, hmax] <;> omega
  · rcases a with _ | n <;> rcases l with _ | lab
    · exact ⟨0, by simp [spend_phase, setChar], le_refl 0⟩
    · exact ⟨0, by simp [spend_phase, setChar], le_refl 0⟩
    · exact ⟨max (prev - n) 0,
        by simp [spend_phase, setChar, hprev, hmax]; omega, le_max_right _ _⟩
    · exact ⟨max (prev - n) 0,
        by simp [spend_phase, setChar, hprev, hmax]; omega, le_max_right _ _⟩
  · rcases a with _ | n <;> rcases l with _ | lab <;>
      simp [spend_action, spend_phase, spend_action_check, setChar, hth, hw, hprev]

/-- C7 witness: fighter 1 of the live fight `wC3` (1 action remaining)
spends 1 action with label `attack`. -/
theorem C7_spend_action_witness :
    (spend_phase wC3 1 (Amount.num 1) (some Label.attack)).2 = none ∧
    (∀ lab, some Label.attack = some lab →
      (((spend_phase wC3 1 (Amount.num 1) (some Label.attack)).1).chars 1).combat_lastaction
        = some lab) ∧
    ((some Label.attack : Option Label) = none →
      (((spend_phase wC3 1 (Amount.num 1) (some Label.attack)).1).chars 1).combat_lastaction
        = (wC3.chars 1).combat_lastaction) ∧
    (Amount.num 1 = Amount.all →
      (((spend_phase wC3 1 (Amount.num 1) (some Label.attack)).1).chars 1).combat_actionsleft
        = some 0) ∧
    (∀ n, Amount.num 1 = Amount.num n →
      (((spend_phase wC3 1 (Amount.num 1) (some Label.attack)).1).chars 1).combat_actionsleft
        = some (max (1 - n) 0)) ∧
    (∃ v, (((spend_phase wC3 1 (Amount.num 1) (some Label.attack)).1).chars 1).combat_actionsleft
        = some v ∧ 0 ≤ v) ∧
    spend_action wC3 1 (Amount.num 1) (some Label.attack) 0
      = turn_end_check (spend_phase wC3 1 (Amount.num 1) (some Label.attack)).1 hC3 1 0 :=
  C7_spend_action wC3 1 (Amount.num 1) (some Label.attack) 0 hC3 1
    (by decide) (by decide) (by decide)

/-- C8: (general) whenever a tick drives the countdown to ≤ 0, `at_repeat`
announces the current participant's timeout and force-spends all of their
remaining actions with label `disengage` (via `spend_action`, which
synchronously runs the end-of-turn evaluation); (concrete) with
`TURN_TIMEOUT = 30` and interval 5, the first five ticks of the fresh fight
`rC6a` leave the cursor on fighter 2 with their action unspent, and the
sixth tick times fighter 2 out, force-disengages them and rotates the turn
to fighter 1, replenishing fighter 1's actions. -/
theorem C8_timeout :
    (∀ (w : World) (h : Handler) (tuntr : Nat) (current : CharId),
      w.handler = some h →
      h.fighters[h.turn]? = some current →
      h.timer - INTERVAL ≤ 0 →
      at_repeat w tuntr =
        { world := (spend_action
            { w with handler := some { h with timer := h.timer - INTERVAL } }
            current Amount.all (some Label.disengage) tuntr).world,
          msgs := Msg.timedOut current :: (spend_action
            { w with handler := some { h with timer := h.timer - INTERVAL } }
            current Amount.all (some Label.disengage) tuntr).msgs,
          err := (spend_action
            { w with handler := some { h with timer := h.timer - INTERVAL } }
            current Amount.all (some Label.disengage) tuntr).err }) ∧
    (rT5.world.handler = some hT5 ∧
     (rT5.world.chars 2).combat_actionsleft = some 1 ∧
     (rT5.world.chars 2).combat_lastaction = some Label.null ∧
     rT4.msgs = [Msg.timeoutWarning 2] ∧
     rT6.err = none ∧
     rT6.msgs = [Msg.timedOut 2, Msg.turnEnds 2 1, Msg.yourTurn 1 100] ∧
     rT6.world.handler = some
       { fighters := [2, 1], turn := 1, timer := 35,
         timeout_warning_given := false } ∧
     (rT6.world.chars 2).combat_lastaction = some Label.disengage ∧
     (rT6.world.chars 2).combat_actionsleft = some 0 ∧
     (rT6.world.chars 1).combat_actionsleft = some 1) := by
  constructor
  · intro w h tuntr current hw hcur htime
    unfold at_repeat
    rw [hw]
    dsimp only
    rw [hcur]
    dsimp only
    rw [if_pos htime]
  · decide

/-- C8 witness: the general timeout rule applied at the concrete state after
the fifth tick, whose sixth tick drives the timer to 0. -/
theorem C8_timeout_witness :
    at_repeat rT5.world 5 =
      { world := (spend_action
          { rT5.world with handler := some { hT5 with timer := hT5.timer - INTERVAL } }
          2 Amount.all (some Label.disengage) 5).world,
        msgs := Msg.timedOut 2 :: (spend_action
          { rT5.world with handler := some { hT5 with timer := hT5.timer - INTERVAL } }
          2 Amount.all (some Label.disengage) 5).msgs,
        err := (spend_action
          { rT5.world with handler := some { hT5 with timer := hT5.timer - INTERVAL } }
          2 Amount.all (some Label.disengage) 5).err } :=
  C8_timeout.1 rT5.world hT5 5 2 (by decide) (by decide) (by decide)

/-- C9: for every candidate list with at least 2 members of positive
(nonzero) health, `at_script_creation` produces a roster that is a
permutation of exactly the eligible candidates, sorted descending by the
initiative score with ties broken by the stable order in which candidates
were supplied (strictly increasing original positions on equal scores), and
the cursor is set to 0 (with the countdown at `TURN_TIMEOUT`). -/
theorem C9_initiative (w : World) (contents : List CharId) (score : CharId → Nat)
    (hN : 2 ≤ (contents.filter fun i => decide ((w.chars i).hp ≠ 0)).length) :
    ∃ h, (at_script_creation w contents score).world.handler = some h ∧
      (at_script_creation w contents score).err = none ∧
      h.turn = 0 ∧ h.timer = TURN_TIMEOUT ∧
      h.fighters = stableSortDesc score
        (contents.filter fun i => decide ((w.chars i).hp ≠ 0)) ∧
      h.fighters.Perm (contents.filter fun i => decide ((w.chars i).hp ≠ 0)) ∧
      h.fighters.Pairwise (fun a b => score b ≤ score a) ∧
      (List.insertionSort (initRel score)
          (contents.filter fun i => decide ((w.chars i).hp ≠ 0)).enum).Pairwise
        (fun a b => score b.2 < score a.2 ∨ (score a.2 = score b.2 ∧ a.1 < b.1)) := by
  have hperm : ∀ l : List CharId, (stableSortDesc score l).Perm l := by
    intro l
    unfold stableSortDesc
    have h1 := (List.perm_insertionSort (initRel score) l.enum).map Prod.snd
    rwa [List.enum_map_snd] at h1
  have hlen : (stableSortDesc score
      (contents.filter fun i => decide ((w.chars i).hp ≠ 0))).length
      = (contents.filter fun i => decide ((w.chars i).hp ≠ 0)).length :=
    (hperm _).length_eq
  have hpos : 0 < (stableSortDesc score
      (contents.filter fun i => decide ((w.chars i).hp ≠ 0))).length := by omega
  have h0 := List.getElem?_eq_getElem hpos
  have hsorted := List.sorted_insertionSort (initRel score)
    (contents.filter fun i => decide ((w.chars i).hp ≠ 0)).enum
  have hfstnd : ((List.insertionSort (initRel score)
      (contents.filter fun i => decide ((w.chars i).hp ≠ 0)).enum).map Prod.fst).Nodup := by
    have hp := (List.perm_insertionSort (initRel score)
      (contents.filter fun i => decide ((w.chars i).hp ≠ 0)).enum).map Prod.fst
    rw [List.enum_map_fst] at hp
    exact hp.nodup_iff.mpr (List.nodup_range _)
  have hne : (List.insertionSort (initRel score)
      (contents.filter fun i => decide ((w.chars i).hp ≠ 0)).enum).Pairwise
      (fun a b => a.1 ≠ b.1) := List.pairwise_map.mp hfstnd
  refine ⟨Handler.mk
      (stableSortDesc score (contents.filter fun i => decide ((w.chars i).hp ≠ 0)))
      0 TURN_TIMEOUT false,
    ?_, ?_, rfl, rfl, rfl, hperm _, ?_, ?_⟩
  · unfold at_script_creation
    dsimp only
    rw [h0]
    rfl
  · unfold at_script_creation
    dsimp only
    rw [h0]
    rfl
  · unfold stableSortDesc
    rw [List.pairwise_map]
    refine hsorted.imp ?_
    intro a b hr
    unfold initRel at hr
    omega
  · refine (hsorted.and hne).imp ?_
    rintro a b ⟨hr, hne1⟩
    unfold initRel at hr
    rcases hr with hlt | ⟨heq, hle⟩
    · exact Or.inl hlt
    · exact Or.inr ⟨heq, lt_of_le_of_ne hle hne1⟩

/-- C9 witness: candidates `[1, 2, 3]` of `wBase` (all with positive HP)
under `scoreA` (fighter 2 rolls 700, fighters 1 and 3 tie at 500). -/
theorem C9_initiative_witness :
    ∃ h, (at_script_creation wBase [1, 2, 3] scoreA).world.handler = some h ∧
      (at_script_creation wBase [1, 2, 3] scoreA).err = none ∧
      h.turn = 0 ∧ h.timer = TURN_TIMEOUT ∧
      h.fighters = stableSortDesc scoreA
        (([1, 2, 3] : List CharId).filter fun i => decide ((wBase.chars i).hp ≠ 0)) ∧
      h.fighters.Perm (([1, 2, 3] : List CharId).filter
        fun i => decide ((wBase.chars i).hp ≠ 0)) ∧
      h.fighters.Pairwise (fun a b => scoreA b ≤ scoreA a) ∧
      (List.insertionSort (initRel scoreA)
          (([1, 2, 3] : List CharId).filter
            fun i => decide ((wBase.chars i).hp ≠ 0)).enum).Pairwise
        (fun a b => scoreA b.2 < scoreA a.2 ∨ (scoreA a.2 = scoreA b.2 ∧ a.1 < b.1)) :=
  C9_initiative wBase [1, 2, 3] scoreA (by decide)

/-- C10: for a character whose scheduler back-reference is unset
(`is_in_combat` is false), `is_turn` raises (`AttributeError` from
dereferencing the absent turn handler) and `spend_action` raises too (from
the absent handler or the absent actions-left attribute) rather than
returning `False` — and spend_action does not leave state unchanged: a given
label is still written to the character's last-action field before the
raise. Being in combat is a genuine precondition of both calls. -/
theorem C10_not_in_combat_raises (w : World) (i : CharId) (a : Amount)
    (l : Option Label) (tuntr : Nat)
    (hch : (w.chars i).combat_turnhandler = false) :
    is_in_combat w i = false ∧
    is_turn w i = Except.error Err.attrErrNone ∧
    (spend_action w i a l tuntr).err.isSome = true ∧
    (∀ lab, l = some lab →
      ((spend_action w i a l tuntr).world.chars i).combat_lastaction = some lab) := by
  refine ⟨by simp [is_in_combat, hch], by simp [is_turn, hch], ?_, ?_⟩
  · rcases a with _ | n <;> rcases l with _ | lab <;>
      rcases hal : (w.chars i).combat_actionsleft with _ | v <;>
      simp [spend_action, spend_phase, spend_action_check, setChar, hch, hal,
        Res.fail]
  · intro lab hl
    subst hl
    rcases a with _ | n <;>
      rcases hal : (w.chars i).combat_actionsleft with _ | v <;>
      simp [spend_action, spend_phase, spend_action_check, setChar, hch, hal,
        Res.fail]

/-- C10 witness: character 1 of `wBase` is not in combat; `is_turn` and
`spend_action` (with 1 action and label `attack`) both raise, and the label
is written anyway. -/
theorem C10_not_in_combat_raises_witness :
    is_in_combat wBase 1 = false ∧
    is_turn wBase 1 = Except.error Err.attrErrNone ∧
    (spend_action wBase 1 (Amount.num 1) (some Label.attack) 0).err.isSome = true ∧
    (∀ lab, (some Label.attack : Option Label) = some lab →
      ((spend_action wBase 1 (Amount.num 1) (some Label.attack) 0).world.chars 1).combat_lastaction
        = some lab) :=
  C10_not_in_combat_raises wBase 1 (Amount.num 1) (some Label.attack) 0 (by decide)
